import Mathlib

/-!
Shallow embedding of the WEB_TESLA_ITSE frontend client logic
(`frontend/js/api.js` and the main `App` controller module) in Lean 4.

The JavaScript code is DOM-and-network glue.  We embed it as pure
functions: asynchronous network calls become `Except`-valued oracle
arguments (the resolved/rejected outcome of the awaited promise), and
DOM mutations become explicit event traces (lists of events in the
order the handler performs them).  JS numbers that can only hold small
integer percentages are modelled as `Int` (with an explicit `nan`
constructor where JS `NaN` falsiness matters).
-/

namespace TeslaItse

/-! ### JS primitives -/

/-- Model of the JS whitespace class `\s` (restricted to the ASCII
whitespace characters; the Unicode space variants are outside the model). -/
def jsWs (c : Char) : Bool := c.isWhitespace

/-- `String.prototype.trim()`: strip leading and trailing whitespace. -/
def jsTrim (s : String) : String :=
  ⟨((s.data.dropWhile jsWs).reverse.dropWhile jsWs).reverse⟩

/-- A JS number as it can reach the metrics renderer: an integer or `NaN`. -/
inductive JSNum where
  | nan
  | int (n : Int)
deriving DecidableEq, Repr

/-- JS falsiness of a number: `0` and `NaN` are falsy. -/
def JSNum.falsy : JSNum → Bool
  | .nan => true
  | .int n => n == 0

/-- Template-literal coercion of a JS number to a string. -/
def JSNum.render : JSNum → String
  | .nan => "NaN"
  | .int n => toString n

/-! ### Metrics rendering (`App.updateMetricsUI`, `App.loadMetrics`)

DOM fixture assumed by the embedding: the page holds exactly four
`.chart .bar` elements, in the order of `keys`, each containing a
`.tip` label element. -/

/-- A JS object of metric values, as an association list
(`metrics[key]` is the first binding of `key`, `undefined` if absent). -/
def MetricsObj := List (String × JSNum)

/-- JS property read `metrics[key]`. -/
def metricLookup (m : MetricsObj) (key : String) : Option JSNum :=
  (m.find? (fun p => p.1 == key)).map (·.2)

/-- The fixed ordered chart keys of `updateMetricsUI`. -/
def chartKeys : List String := ["itse", "pozo", "mant", "inc"]

/-- The DOM writes `updateMetricsUI` performs on one bar:
`bar.style.height` and the `.tip` label's `textContent`. -/
structure BarRender where
  height : String
  tip : String
deriving DecidableEq, Repr

/-- `const value = metrics[key] || 50`: the falsy-default of the looked-up
value (missing, `0` and `NaN` all give `50`). -/
def jsDefault : Option JSNum → JSNum
  | none => .int 50
  | some v => if v.falsy then .int 50 else v

/-- `Math.max(5, Math.min(100, n))` on an integer. -/
def clampInt (n : Int) : Int := max 5 (min 100 n)

/-- One iteration of the `bars.forEach` body of `App.updateMetricsUI`:
`bar.style.height = `${Math.max(5, Math.min(100, value))}%`` and
`tip.textContent = `${value}%``. -/
def renderBar (m : MetricsObj) (key : String) : BarRender :=
  match jsDefault (metricLookup m key) with
  | .int n => ⟨toString (clampInt n) ++ "%", toString n ++ "%"⟩
  | .nan => ⟨"NaN%", "NaN%"⟩

/-- `App.updateMetricsUI`: render the four bars in key order. -/
def updateMetricsUI (m : MetricsObj) : List BarRender :=
  chartKeys.map (renderBar m)

/-- The fixed fallback metrics object of `App.loadMetrics`. -/
def fallbackMetrics : MetricsObj :=
  [("itse", .int 80), ("pozo", .int 65), ("mant", .int 90), ("inc", .int 50)]

/-- Observable outcome of `App.loadMetrics`: the bar renders, the console
errors, and the user-visible notifications it produces. -/
structure LoadMetricsOut where
  bars : List BarRender
  consoleErrors : List String
  notifications : List (String × String)
deriving DecidableEq, Repr

/-- `App.loadMetrics`, with the awaited `getMetrics()` outcome as oracle:
on resolution render the returned object, on rejection log to the console
and render the fixed fallback object; no notification on either path and
no exception escapes (the function is total). -/
def loadMetrics : Except String MetricsObj → LoadMetricsOut
  | .ok m => ⟨updateMetricsUI m, [], []⟩
  | .error e =>
      ⟨updateMetricsUI fallbackMetrics, ["Error al cargar métricas: " ++ e], []⟩

/-! ### The API client (`ApiService.fetchApi`)

A decoded JSON value.  JSON `null` is deliberately omitted: with a
`null` error body the JS expression `error.message` itself throws an
engine-specific `TypeError` before the code's own error handling runs,
which is outside this model's scope. -/

inductive Json where
  | bool (b : Bool)
  | num (n : Int)
  | str (s : String)
  | arr (elems : List Json)
  | obj (fields : List (String × Json))

/-- JS property read `j.message` on a decoded JSON value: a field lookup on
an object, `undefined` (here `none`) on every other value. -/
def Json.field : Json → String → Option Json
  | .obj fields, key => (fields.find? (fun p => p.1 == key)).map (·.2)
  | _, _ => none

/-- JS truthiness of a decoded JSON value (`false`, `0` and `""` are falsy;
arrays and objects are always truthy). -/
def Json.truthy : Json → Bool
  | .bool b => b
  | .num n => n != 0
  | .str s => s != ""
  | .arr _ => true
  | .obj _ => true

mutual
/-- JS `String(...)` coercion of a decoded JSON value, as performed by the
`Error` constructor on its message argument. -/
def Json.toJsString : Json → String
  | .bool b => if b then "true" else "false"
  | .num n => toString n
  | .str s => s
  | .arr elems => String.intercalate "," (Json.listToJsStrings elems)
  | .obj _ => "[object Object]"

/-- Coerce each element of a JSON array to its JS string form. -/
def Json.listToJsStrings : List Json → List String
  | [] => []
  | j :: js => j.toJsString :: Json.listToJsStrings js
end

/-- `error.message || 'Error en la petición'`: the message of the `Error`
thrown for a non-ok response, from the decoded error body. -/
def errorMessageOf (body : Json) : String :=
  match body.field "message" with
  | some v => if v.truthy then v.toJsString else "Error en la petición"
  | none => "Error en la petición"

/-- An HTTP response as `fetch` resolves it: a status code, and the result
of reading the body as JSON (`response.json()`), which either decodes to a
`Json` value or rejects with a parse-error message. -/
structure HttpResponse where
  status : Nat
  jsonBody : Except String Json

/-- The outcome of the awaited `fetch` call: a resolved response, or a
rejection with the transport error's message. -/
inductive FetchInput where
  | resp (r : HttpResponse)
  | netFail (msg : String)

/-- `response.ok`: status in the inclusive range 200–299. -/
def respOk (status : Nat) : Bool := 200 ≤ status && status ≤ 299

/-- What `fetchApi` returns to its caller on success. -/
inductive FetchResult where
  | noContent
  | json (j : Json)

/-- `ApiService.fetchApi`, with the transport outcome as oracle.
On a non-ok status it decodes the error body (falling back to `{}` when
decoding fails) and throws `Error(error.message || 'Error en la petición')`;
on status 204 it returns `null` (here `noContent`) without touching the
body; otherwise it returns the decoded body, rethrowing the parse error
when the body is not JSON.  The surrounding `catch` logs and rethrows, so
every rejection propagates unchanged. -/
def fetchApi : FetchInput → Except String FetchResult
  | .netFail msg => .error msg
  | .resp r =>
      if !respOk r.status then
        .error (errorMessageOf (r.jsonBody.toOption.getD (Json.obj [])))
      else if r.status == 204 then
        .ok .noContent
      else
        match r.jsonBody with
        | .ok j => .ok (.json j)
        | .error parseMsg => .error parseMsg

/-! ### HTML escaping (`App.escapeHtml`)

`escapeHtml` routes the text through a detached `div`'s
`textContent`/`innerHTML` pair; the browser's text-node serialization
escapes `&`, `<` and `>` (we leave the non-breaking-space entity outside
the model). -/

/-- Serialization of one character of a text node. -/
def escapeChar (c : Char) : List Char :=
  if c = '&' then ['&', 'a', 'm', 'p', ';']
  else if c = '<' then ['&', 'l', 't', ';']
  else if c = '>' then ['&', 'g', 't', ';']
  else [c]

/-- `App.escapeHtml`: escape every character of the text. -/
def escapeHtml (s : String) : String := ⟨(s.data.map escapeChar).flatten⟩

/-! ### The chat handler (`App.handleChatSubmit`, `App.appendMessage`)

`appendMessage text sender` inserts a transcript entry whose message-text
html is `escapeHtml text` and whose time stamp is the current local
time; the trace events below record exactly those DOM writes, with the
clock value an oracle parameter `now`. -/

/-- DOM/network events performed by the chat submit handler, in order. -/
inductive ChatEv where
  | preventDefault
  | appendMsg (html sender time : String)
  | clearInput
  | showTyping
  | hideTyping
  | sendMsg (text : String)
  | consoleError (msg : String)
deriving DecidableEq, Repr

/-- The fixed fallback bot message of the chat error path. -/
def chatFallback : String :=
  "Lo siento, ha ocurrido un error al procesar tu mensaje. Por favor, inténtalo de nuevo más tarde."

/-- `App.handleChatSubmit`, with the awaited `sendChatMessage` outcome as
oracle (`.ok reply` is the resolved response's `reply` field, `.error e`
any rejection).  Trim the input; return after `preventDefault` alone when
empty; otherwise append the user entry, clear the input, show the typing
indicator, send, and on resolution hide the indicator and append exactly
one bot entry (the reply, or the fixed fallback on rejection). -/
def handleChatSubmit (now input : String) (net : Except String String) : List ChatEv :=
  let message := jsTrim input
  if message = "" then [.preventDefault]
  else
    [.preventDefault, .appendMsg (escapeHtml message) "user" now,
     .clearInput, .showTyping, .sendMsg message] ++
    match net with
    | .ok reply => [.hideTyping, .appendMsg (escapeHtml reply) "bot" now]
    | .error e =>
        [.consoleError ("Error en el chat: " ++ e), .hideTyping,
         .appendMsg (escapeHtml chatFallback) "bot" now]

/-- Is this event the insertion of a transcript entry from the user? -/
def ChatEv.isUserAppend : ChatEv → Bool
  | .appendMsg _ "user" _ => true
  | _ => false

/-- Is this event the insertion of a transcript entry from the bot? -/
def ChatEv.isBotAppend : ChatEv → Bool
  | .appendMsg _ "bot" _ => true
  | _ => false

/-! ### Email validation (`/^[^\s@]+@[^\s@]+\.[^\s@]+$/.test(email)`)

The regex demands: one or more characters that are neither whitespace nor
`@`, then `@`, then (with backtracking) a part, a literal dot and a part,
each part again one or more non-whitespace non-`@` characters (dots are
allowed inside the parts).  Since `@` is excluded everywhere, the string
contains exactly one `@`; the portion after it matches
`[^\s@]+\.[^\s@]+` exactly when it is whitespace-free and has a dot that
is neither its first nor its last character. -/

/-- Does the list (a regex character-class run) avoid whitespace? -/
def noWs (l : List Char) : Bool := l.all (fun c => !jsWs c)

/-- Does the domain portion have a dot at an inner position (neither first
nor last)? -/
def hasInnerDot (b : List Char) : Bool :=
  match b with
  | [] => false
  | _ :: t => t.dropLast.contains '.'

/-- The email regex test of `App.handleContactSubmit`. -/
def emailMatches (s : String) : Bool :=
  match s.data.splitOn '@' with
  | [a, b] => !a.isEmpty && noWs a && noWs b && hasInnerDot b
  | _ => false

/-! ### The contact-form handler (`App.handleContactSubmit`) -/

/-- The raw form values, as `formData.get` returns them (`none` models a
`null` for an absent field; `?.trim()` turns that into `undefined`). -/
structure ContactFields where
  name : Option String
  email : Option String
  phone : Option String
  message : Option String
deriving DecidableEq, Repr

/-- The lead object built and sent by the handler. -/
structure Lead where
  name : String
  email : String
  phone : String
  message : String
  source : String
deriving DecidableEq, Repr

/-- JS falsiness of a trimmed form value: `undefined` (field absent) or the
empty string. -/
def fieldFalsy : Option String → Bool
  | none => true
  | some s => s == ""

/-- DOM/network events performed by the contact submit handler, in order. -/
inductive ContactEv where
  | preventDefault
  | buttonDisable
  | buttonSetText (t : String)
  | buttonEnable
  | sendLead (l : Lead)
  | notify (msg ty : String)
  | formReset
  | consoleError (msg : String)
deriving DecidableEq, Repr

/-- The generic fallback of the error notification
(`error.message || '...'`). -/
def contactGenericError : String :=
  "Error al enviar el mensaje. Por favor, intente nuevamente."

/-- The `try` block of `App.handleContactSubmit` after the disable/busy
writes: the events it performs and the message of the `Error` it throws,
if any (`.error e` of the oracle is the rejection of `sendLead`). -/
def contactTryBody (f : ContactFields) (net : Except String Unit) :
    List ContactEv × Option String :=
  let name := f.name.map jsTrim
  let email := f.email.map jsTrim
  let phone := f.phone.map jsTrim
  let message := f.message.map jsTrim
  if fieldFalsy name || fieldFalsy email || fieldFalsy phone then
    ([], some "Por favor complete todos los campos obligatorios")
  else if !emailMatches (email.getD "") then
    ([], some "Por favor ingrese un correo electrónico válido")
  else
    let lead : Lead :=
      { name := name.getD "", email := email.getD "", phone := phone.getD "",
        message := if fieldFalsy message then "Sin mensaje adicional" else message.getD "",
        source := "formulario-web" }
    match net with
    | .ok _ =>
        ([.sendLead lead, .notify "¡Mensaje enviado con éxito!" "success",
          .formReset], none)
    | .error e => ([.sendLead lead], some e)

/-- `App.handleContactSubmit`, with the awaited `sendLead` outcome as
oracle and `orig` the button's original label.  `preventDefault`, then in
the `try`: disable the button, set the busy label, validate, send; the
`catch` logs and shows the error notification (the thrown message, or the
generic fallback when it is falsy); the `finally` re-enables the button
and restores its label on every path. -/
def handleContactSubmit (orig : String) (f : ContactFields)
    (net : Except String Unit) : List ContactEv :=
  let (bodyEvs, err) := contactTryBody f net
  let catchEvs : List ContactEv :=
    match err with
    | none => []
    | some m =>
        [.consoleError ("Error al enviar el formulario: " ++ m),
         .notify (if m = "" then contactGenericError else m) "error"]
  [.preventDefault, .buttonDisable, .buttonSetText "Enviando..."] ++
    bodyEvs ++ catchEvs ++ [.buttonEnable, .buttonSetText orig]

/-- The handler's validation predicate: the three required trimmed fields
are present and non-empty and the trimmed email passes the regex test. -/
def contactValidates (f : ContactFields) : Bool :=
  !(fieldFalsy (f.name.map jsTrim) || fieldFalsy (f.email.map jsTrim) ||
    fieldFalsy (f.phone.map jsTrim)) &&
  emailMatches ((f.email.map jsTrim).getD "")

/-! ### Startup (`App.initializeApp`, `App.checkBackendConnection`,
`App.updateConnectionStatus`, `App.initializeEventListeners`) -/

/-- Which of the DOM elements the startup code looks up actually exist. -/
structure Dom where
  statusElement : Bool
  contactForm : Bool
  chatForm : Bool
deriving DecidableEq, Repr

/-- DOM/console events performed during startup, in order. -/
inductive InitEv where
  | setStatus (connected : Bool)
  | renderBars (bars : List BarRender)
  | bindContact
  | bindChat
  | notify (msg ty : String)
  | consoleError (msg : String)
  | consoleLog (msg : String)
deriving DecidableEq, Repr

/-- `App.updateConnectionStatus`: write the status text/class when the
`connection-status` element exists, otherwise do nothing. -/
def updateConnectionStatus (dom : Dom) (isConnected : Bool) : List InitEv :=
  if dom.statusElement then [.setStatus isConnected] else []

/-- `App.checkBackendConnection`, with the awaited `checkHealth` outcome as
oracle: on resolution mark connected; on rejection log, mark disconnected
and rethrow (the returned `Option String` is the propagated error). -/
def checkBackendConnection (dom : Dom) (health : Except String Unit) :
    List InitEv × Option String :=
  match health with
  | .ok _ => (updateConnectionStatus dom true, none)
  | .error e =>
      ([.consoleError ("No se pudo conectar al backend: " ++ e)] ++
        updateConnectionStatus dom false, some e)

/-- `App.loadMetrics` as startup events (same logic as `loadMetrics`,
recorded in the event trace; it never throws). -/
def loadMetricsEvents (net : Except String MetricsObj) : List InitEv :=
  match net with
  | .ok m => [.renderBars (updateMetricsUI m)]
  | .error e =>
      [.consoleError ("Error al cargar métricas: " ++ e),
       .renderBars (updateMetricsUI fallbackMetrics)]

/-- `App.initializeEventListeners`: bind the contact-form handler and the
chat handler, each only when its form element exists. -/
def initializeEventListeners (dom : Dom) : List InitEv :=
  (if dom.contactForm then [.bindContact] else []) ++
    (if dom.chatForm then [.bindChat] else [])

/-- `App.initializeApp`: `try` the health check, the metrics load and the
listener binding in sequence; the `catch` (reached exactly when the health
check rejects, the only throwing step) logs and shows the connection-error
notification — it does not resume the remaining initialization steps. -/
def initializeApp (dom : Dom) (health : Except String Unit)
    (metricsNet : Except String MetricsObj) : List InitEv :=
  match checkBackendConnection dom health with
  | (evs, none) =>
      evs ++ loadMetricsEvents metricsNet ++ initializeEventListeners dom ++
        [.consoleLog "Aplicación inicializada correctamente"]
  | (evs, some e) =>
      evs ++
        [.consoleError ("Error al inicializar la aplicación: " ++ e),
         .notify "Error al conectar con el servidor" "error"]

/-! ## Claims -/

/-- C2 (counterexample): the claim says the percentage label equals
`clamp(v, 5, 100)`, but for the present value `3` the rendered bar height
is the clamped `"5%"` while the `.tip` label shows the raw `"3%"` — the
label is not clamped. -/
theorem metricsLabel_claim_counterexample :
    metricLookup [("itse", JSNum.int 3)] "itse" = some (.int 3) ∧
    updateMetricsUI [("itse", JSNum.int 3)] =
      [⟨"5%", "3%"⟩, ⟨"50%", "50%"⟩, ⟨"50%", "50%"⟩, ⟨"50%", "50%"⟩] ∧
    (renderBar [("itse", JSNum.int 3)] "itse").tip ≠ toString (clampInt 3) ++ "%" := by
  decide

/-- C2 (amended): for every non-falsy metric value `v` present in the
object, the rendered bar height equals `clamp(v, 5, 100)` while the label
shows the raw value `v`; a missing key renders as 50 for both. -/
theorem metricsRender_amended (m : MetricsObj) (k : String) :
    updateMetricsUI m = chartKeys.map (renderBar m) ∧
    (∀ n : Int, metricLookup m k = some (.int n) → n ≠ 0 →
      renderBar m k = ⟨toString (clampInt n) ++ "%", toString n ++ "%"⟩) ∧
    (metricLookup m k = none → renderBar m k = ⟨"50%", "50%"⟩) := by
  refine ⟨rfl, ?_, ?_⟩
  · intro n hm hn
    unfold renderBar
    rw [hm]
    simp [jsDefault, JSNum.falsy, hn]
  · intro hm
    unfold renderBar
    rw [hm]
    rfl

/-- C2 (witness for the amended theorem). -/
theorem metricsRender_amended_witness :
    metricLookup [("itse", JSNum.int 7)] "itse" = some (.int 7) ∧ (7 : Int) ≠ 0 ∧
    renderBar [("itse", JSNum.int 7)] "itse" =
      ⟨toString (clampInt 7) ++ "%", toString (7 : Int) ++ "%"⟩ :=
  ⟨by decide, by decide,
    (metricsRender_amended [("itse", JSNum.int 7)] "itse").2.1 7 (by decide) (by decide)⟩

/-- C6: when the metrics call fails, the controller renders exactly the
fixed fallback `{itse: 80, pozo: 65, mant: 90, inc: 50}` (all within
clamp range, so height and label agree), logs to the console only, shows
no notification, and returns normally (the embedding is total, so no
exception escapes). -/
theorem metricsFailure_fallback_silent (e : String) :
    loadMetrics (.error e) =
      ⟨[⟨"80%", "80%"⟩, ⟨"65%", "65%"⟩, ⟨"90%", "90%"⟩, ⟨"50%", "50%"⟩],
       ["Error al cargar métricas: " ++ e], []⟩ ∧
    (loadMetrics (.error e)).bars = updateMetricsUI fallbackMetrics ∧
    (loadMetrics (.error e)).notifications = [] := by
  have hbars : updateMetricsUI fallbackMetrics =
      [⟨"80%", "80%"⟩, ⟨"65%", "65%"⟩, ⟨"90%", "90%"⟩, ⟨"50%", "50%"⟩] := by decide
  exact ⟨by simp [loadMetrics, hbars], rfl, rfl⟩

/-- C10: a chart key present with a JS-falsy number (`0` or `NaN`) renders
exactly like a missing key — height `"50%"` and label `"50%"` — and in
particular not as the clamped value of the key. -/
theorem falsyMetric_rendersAs50 (m : MetricsObj) (k : String) (v : JSNum)
    (hm : metricLookup m k = some v) (hf : v.falsy = true) :
    renderBar m k = ⟨"50%", "50%"⟩ ∧
    renderBar m k = renderBar [] k ∧
    (v = .int 0 → renderBar m k ≠ ⟨toString (clampInt 0) ++ "%", toString (clampInt 0) ++ "%"⟩) := by
  have h50 : renderBar m k = ⟨"50%", "50%"⟩ := by
    unfold renderBar
    rw [hm]
    simp only [jsDefault, hf, if_true, ite_true]
    decide
  refine ⟨h50, ?_, ?_⟩
  · rw [h50]; rfl
  · intro _
    rw [h50]
    decide


/-- C10 (witness). -/
theorem falsyMetric_rendersAs50_witness :
    metricLookup [("itse", JSNum.int 0)] "itse" = some (.int 0) ∧
    (JSNum.int 0).falsy = true ∧
    renderBar [("itse", JSNum.int 0)] "itse" = ⟨"50%", "50%"⟩ :=
  ⟨by decide, by decide,
    (falsyMetric_rendersAs50 [("itse", JSNum.int 0)] "itse" (.int 0)
      (by decide) (by decide)).1⟩

/-- C7: the fetch wrapper fails on a non-2xx status with the server's JSON
error-body `message` when it is a (truthy) string, and with the generic
default when the body does not decode or has no `message`; on HTTP 204 it
returns the no-content result whatever the body read does; and on a
network failure it fails with the transport error's message (the same
`.error` kind throughout). -/
theorem fetchApi_spec :
    (∀ r : HttpResponse, respOk r.status = false →
      ((∀ j msg, r.jsonBody = .ok j → j.field "message" = some (.str msg) →
          msg ≠ "" → fetchApi (.resp r) = .error msg) ∧
       (∀ pe, r.jsonBody = .error pe →
          fetchApi (.resp r) = .error "Error en la petición") ∧
       (∀ j, r.jsonBody = .ok j → j.field "message" = none →
          fetchApi (.resp r) = .error "Error en la petición"))) ∧
    (∀ b, fetchApi (.resp ⟨204, b⟩) = .ok .noContent) ∧
    (∀ msg, fetchApi (.netFail msg) = .error msg) := by
  refine ⟨?_, fun b => rfl, fun msg => rfl⟩
  intro r hok
  refine ⟨?_, ?_, ?_⟩
  · intro j msg hbody hfield hmsg
    have hm : errorMessageOf j = msg := by
      unfold errorMessageOf
      rw [hfield]
      simp [Json.truthy, Json.toJsString, hmsg]
    simp only [fetchApi, hbody, hok]
    show Except.error (errorMessageOf j) = Except.error msg
    rw [hm]
  · intro pe hbody
    simp only [fetchApi, hbody, hok]
    rfl
  · intro j hbody hfield
    have hm : errorMessageOf j = "Error en la petición" := by
      unfold errorMessageOf
      rw [hfield]
    simp only [fetchApi, hbody, hok]
    show Except.error (errorMessageOf j) = Except.error "Error en la petición"
    rw [hm]

/-- C7 (witness). -/
theorem fetchApi_spec_witness :
    respOk 500 = false ∧
    fetchApi (.resp ⟨500, .ok (Json.obj [("message", .str "Server error")])⟩) =
      .error "Server error" ∧
    fetchApi (.resp ⟨500, .error "Unexpected token"⟩) = .error "Error en la petición" ∧
    fetchApi (.resp ⟨204, .error "Unexpected end of JSON input"⟩) = .ok .noContent ∧
    fetchApi (.netFail "Failed to fetch") = .error "Failed to fetch" :=
  ⟨by decide,
   (fetchApi_spec.1 ⟨500, .ok (Json.obj [("message", .str "Server error")])⟩
      (by decide)).1 _ _ rfl rfl (by decide),
   (fetchApi_spec.1 ⟨500, .error "Unexpected token"⟩ (by decide)).2.1 _ rfl,
   fetchApi_spec.2.1 _,
   fetchApi_spec.2.2 _⟩

/-- C8: a chat submission whose input trims to the empty string performs
only the `preventDefault`: no transcript entry, no network send, and the
input field is not cleared. -/
theorem chatWhitespace_noop (now input : String) (net : Except String String)
    (h : jsTrim input = "") :
    handleChatSubmit now input net = [.preventDefault] ∧
    (∀ html sender t, ChatEv.appendMsg html sender t ∉ handleChatSubmit now input net) ∧
    (∀ m, ChatEv.sendMsg m ∉ handleChatSubmit now input net) ∧
    ChatEv.clearInput ∉ handleChatSubmit now input net := by
  have he : handleChatSubmit now input net = [.preventDefault] := by
    simp [handleChatSubmit, h]
  refine ⟨he, ?_, ?_, ?_⟩ <;> simp [he]

/-- C8 (witness). -/
theorem chatWhitespace_noop_witness :
    jsTrim "   " = "" ∧ handleChatSubmit "10:00" "   " (.ok "x") = [.preventDefault] :=
  ⟨by decide, (chatWhitespace_noop "10:00" "   " (.ok "x") (by decide)).1⟩

/-- C3: a non-whitespace chat submission appends exactly one user entry
(carrying the escaped trimmed input) — at position 1, before the network
send at position 4 — and exactly one bot entry after the call settles:
the escaped reply on resolution, the escaped fixed fallback on rejection,
with the typing indicator removed on both paths. -/
theorem chatSubmit_oneUserOneBot (now input : String) (net : Except String String)
    (h : jsTrim input ≠ "") :
    (handleChatSubmit now input net).countP ChatEv.isUserAppend = 1 ∧
    (handleChatSubmit now input net).countP ChatEv.isBotAppend = 1 ∧
    (handleChatSubmit now input net).get? 1 =
      some (.appendMsg (escapeHtml (jsTrim input)) "user" now) ∧
    (handleChatSubmit now input net).get? 4 = some (.sendMsg (jsTrim input)) ∧
    (∀ reply, net = .ok reply →
      handleChatSubmit now input net =
        [.preventDefault, .appendMsg (escapeHtml (jsTrim input)) "user" now,
         .clearInput, .showTyping, .sendMsg (jsTrim input), .hideTyping,
         .appendMsg (escapeHtml reply) "bot" now]) ∧
    (∀ e, net = .error e →
      handleChatSubmit now input net =
        [.preventDefault, .appendMsg (escapeHtml (jsTrim input)) "user" now,
         .clearInput, .showTyping, .sendMsg (jsTrim input),
         .consoleError ("Error en el chat: " ++ e), .hideTyping,
         .appendMsg (escapeHtml chatFallback) "bot" now]) ∧
    ChatEv.hideTyping ∈ handleChatSubmit now input net := by
  cases net with
  | ok reply =>
    have htr : handleChatSubmit now input (.ok reply) =
        [.preventDefault, .appendMsg (escapeHtml (jsTrim input)) "user" now,
         .clearInput, .showTyping, .sendMsg (jsTrim input), .hideTyping,
         .appendMsg (escapeHtml reply) "bot" now] := by
      simp [handleChatSubmit, h]
    refine ⟨?_, ?_, ?_, ?_, ?_, ?_, ?_⟩
    · rw [htr]; rfl
    · rw [htr]; rfl
    · rw [htr]; rfl
    · rw [htr]; rfl
    · intro reply2 hr
      cases hr
      exact htr
    · intro e he
      cases he
    · rw [htr]; simp
  | error e =>
    have htr : handleChatSubmit now input (.error e) =
        [.preventDefault, .appendMsg (escapeHtml (jsTrim input)) "user" now,
         .clearInput, .showTyping, .sendMsg (jsTrim input),
         .consoleError ("Error en el chat: " ++ e), .hideTyping,
         .appendMsg (escapeHtml chatFallback) "bot" now] := by
      simp [handleChatSubmit, h]
    refine ⟨?_, ?_, ?_, ?_, ?_, ?_, ?_⟩
    · rw [htr]; rfl
    · rw [htr]; rfl
    · rw [htr]; rfl
    · rw [htr]; rfl
    · intro reply2 hr
      cases hr
    · intro e2 he
      cases he
      exact htr
    · rw [htr]; simp

/-- C3 (witness). -/
theorem chatSubmit_oneUserOneBot_witness :
    jsTrim " Hola " ≠ "" ∧
    (handleChatSubmit "10:00" " Hola " (.ok "Buenas")).countP ChatEv.isUserAppend = 1 ∧
    (handleChatSubmit "10:00" " Hola " (.ok "Buenas")).countP ChatEv.isBotAppend = 1 :=
  ⟨by decide,
   (chatSubmit_oneUserOneBot "10:00" " Hola " (.ok "Buenas") (by decide)).1,
   (chatSubmit_oneUserOneBot "10:00" " Hola " (.ok "Buenas") (by decide)).2.1⟩

/-- Helper: the text-node serialization of one character contains no raw
markup delimiter. -/
theorem escapeChar_no_markup (c : Char) : ∀ d ∈ escapeChar c, d ≠ '<' ∧ d ≠ '>' := by
  intro d hd
  unfold escapeChar at hd
  by_cases h1 : c = '&'
  · simp [h1] at hd
    rcases hd with rfl | rfl | rfl | rfl | rfl <;> decide
  · by_cases h2 : c = '<'
    · simp [h1, h2] at hd
      rcases hd with rfl | rfl | rfl | rfl <;> decide
    · by_cases h3 : c = '>'
      · simp [h1, h2, h3] at hd
        rcases hd with rfl | rfl | rfl | rfl <;> decide
      · simp [h1, h2, h3] at hd
        subst hd
        exact ⟨h2, h3⟩

/-- C9: chat message text is HTML-escaped before insertion: the escaped
text never contains a raw `<` or `>` (so it cannot form live markup),
`"<script>"` serializes to the literal `"&lt;script&gt;"`, and every
transcript entry the chat handler inserts carries `escapeHtml` output. -/
theorem chatText_escaped (s : String) :
    (∀ c ∈ (escapeHtml s).data, c ≠ '<' ∧ c ≠ '>') ∧
    escapeHtml "<script>" = "&lt;script&gt;" ∧
    (∀ now input net html sender t,
      ChatEv.appendMsg html sender t ∈ handleChatSubmit now input net →
      ∃ raw, html = escapeHtml raw) := by
  refine ⟨?_, by decide, ?_⟩
  · intro c hc
    have hdata : (escapeHtml s).data = (s.data.map escapeChar).flatten := rfl
    rw [hdata, List.mem_flatten] at hc
    obtain ⟨l, hl, hcl⟩ := hc
    rw [List.mem_map] at hl
    obtain ⟨ch, _, rfl⟩ := hl
    exact escapeChar_no_markup ch c hcl
  · intro now input net html sender t hmem
    by_cases h : jsTrim input = ""
    · simp [handleChatSubmit, h] at hmem
    · cases net with
      | ok reply =>
        simp [handleChatSubmit, h] at hmem
        rcases hmem with ⟨h1, _⟩ | ⟨h1, _⟩
        · exact ⟨_, h1⟩
        · exact ⟨_, h1⟩
      | error e =>
        simp [handleChatSubmit, h] at hmem
        rcases hmem with ⟨h1, _⟩ | ⟨h1, _⟩
        · exact ⟨_, h1⟩
        · exact ⟨_, h1⟩

/-- C9 (witness). -/
theorem chatText_escaped_witness :
    's' ∈ (escapeHtml "<s>").data ∧ ('s' ≠ '<' ∧ 's' ≠ '>') :=
  ⟨by decide, (chatText_escaped "<s>").1 's' (by decide)⟩

/-- C4: when the trimmed name, email or phone is missing or empty, or the
trimmed email fails the regex test, the handler sends no lead and shows a
validation error notification. -/
theorem contactInvalid_noSend (orig : String) (f : ContactFields)
    (net : Except String Unit)
    (h : fieldFalsy (f.name.map jsTrim) = true ∨
         fieldFalsy (f.email.map jsTrim) = true ∨
         fieldFalsy (f.phone.map jsTrim) = true ∨
         emailMatches ((f.email.map jsTrim).getD "") = false) :
    (∀ l, ContactEv.sendLead l ∉ handleContactSubmit orig f net) ∧
    (∃ msg, ContactEv.notify msg "error" ∈ handleContactSubmit orig f net) := by
  by_cases hreq : (fieldFalsy (f.name.map jsTrim) || fieldFalsy (f.email.map jsTrim) ||
      fieldFalsy (f.phone.map jsTrim)) = true
  · have htr : handleContactSubmit orig f net =
        [.preventDefault, .buttonDisable, .buttonSetText "Enviando...",
         .consoleError "Error al enviar el formulario: Por favor complete todos los campos obligatorios",
         .notify "Por favor complete todos los campos obligatorios" "error",
         .buttonEnable, .buttonSetText orig] := by
      simp [handleContactSubmit, contactTryBody, hreq]
    constructor
    · intro l
      rw [htr]
      simp
    · refine ⟨"Por favor complete todos los campos obligatorios", ?_⟩
      rw [htr]
      simp
  · have hreq' : (fieldFalsy (f.name.map jsTrim) || fieldFalsy (f.email.map jsTrim) ||
        fieldFalsy (f.phone.map jsTrim)) = false := by
      simpa using hreq
    have hparts := hreq'
    simp only [Bool.or_eq_false_iff] at hparts
    have hmatch : emailMatches ((f.email.map jsTrim).getD "") = false := by
      rcases h with h1 | h2 | h3 | h4
      · rw [h1] at hparts
        simp at hparts
      · rw [h2] at hparts
        simp at hparts
      · rw [h3] at hparts
        simp at hparts
      · exact h4
    have htr : handleContactSubmit orig f net =
        [.preventDefault, .buttonDisable, .buttonSetText "Enviando...",
         .consoleError "Error al enviar el formulario: Por favor ingrese un correo electrónico válido",
         .notify "Por favor ingrese un correo electrónico válido" "error",
         .buttonEnable, .buttonSetText orig] := by
      simp [handleContactSubmit, contactTryBody, hreq', hmatch]
    constructor
    · intro l
      rw [htr]
      simp
    · refine ⟨"Por favor ingrese un correo electrónico válido", ?_⟩
      rw [htr]
      simp

/-- C4 (witness). -/
theorem contactInvalid_noSend_witness :
    fieldFalsy ((none : Option String).map jsTrim) = true ∧
    (∃ msg, ContactEv.notify msg "error" ∈
      handleContactSubmit "Enviar" ⟨none, some "a@b.c", some "9", none⟩ (.ok ())) :=
  ⟨by decide,
   (contactInvalid_noSend "Enviar" ⟨none, some "a@b.c", some "9", none⟩ (.ok ())
      (Or.inl (by decide))).2⟩

/-- C5: every contact submission starts by disabling the button and
setting the busy label and ends — on every exit path — by re-enabling it
and restoring the original label, with no other button writes in between;
the form is reset exactly when validation passes and the network call
succeeds. -/
theorem contactSubmit_buttonRestored (orig : String) (f : ContactFields)
    (net : Except String Unit) :
    ∃ mid,
      handleContactSubmit orig f net =
        [.preventDefault, .buttonDisable, .buttonSetText "Enviando..."] ++ mid ++
          [.buttonEnable, .buttonSetText orig] ∧
      ContactEv.buttonDisable ∉ mid ∧
      ContactEv.buttonEnable ∉ mid ∧
      (∀ t, ContactEv.buttonSetText t ∉ mid) ∧
      (ContactEv.formReset ∈ mid ↔ (contactValidates f = true ∧ net = .ok ())) := by
  by_cases hreq : (fieldFalsy (f.name.map jsTrim) || fieldFalsy (f.email.map jsTrim) ||
      fieldFalsy (f.phone.map jsTrim)) = true
  · refine ⟨[.consoleError "Error al enviar el formulario: Por favor complete todos los campos obligatorios",
             .notify "Por favor complete todos los campos obligatorios" "error"],
      ?_, by decide, by decide, fun t => by simp, ?_⟩
    · simp [handleContactSubmit, contactTryBody, hreq]
    · simp [contactValidates, hreq]
  · have hreq' : (fieldFalsy (f.name.map jsTrim) || fieldFalsy (f.email.map jsTrim) ||
        fieldFalsy (f.phone.map jsTrim)) = false := by
      simpa using hreq
    by_cases hmatch : emailMatches ((f.email.map jsTrim).getD "") = true
    · cases net with
      | ok u =>
        cases u
        refine ⟨[.sendLead ⟨(f.name.map jsTrim).getD "", (f.email.map jsTrim).getD "",
                   (f.phone.map jsTrim).getD "",
                   if fieldFalsy (f.message.map jsTrim) then "Sin mensaje adicional"
                   else (f.message.map jsTrim).getD "",
                   "formulario-web"⟩,
                 .notify "¡Mensaje enviado con éxito!" "success", .formReset],
          ?_, by simp, by simp, fun t => by simp, ?_⟩
        · simp [handleContactSubmit, contactTryBody, hreq', hmatch]
        · simp [contactValidates, hreq', hmatch]
      | error e =>
        refine ⟨[.sendLead ⟨(f.name.map jsTrim).getD "", (f.email.map jsTrim).getD "",
                   (f.phone.map jsTrim).getD "",
                   if fieldFalsy (f.message.map jsTrim) then "Sin mensaje adicional"
                   else (f.message.map jsTrim).getD "",
                   "formulario-web"⟩,
                 .consoleError ("Error al enviar el formulario: " ++ e),
                 .notify (if e = "" then contactGenericError else e) "error"],
          ?_, by simp, by simp, fun t => by simp, ?_⟩
        · simp [handleContactSubmit, contactTryBody, hreq', hmatch]
        · simp
    · have hmatch' : emailMatches ((f.email.map jsTrim).getD "") = false := by
        simpa using hmatch
      refine ⟨[.consoleError "Error al enviar el formulario: Por favor ingrese un correo electrónico válido",
               .notify "Por favor ingrese un correo electrónico válido" "error"],
        ?_, by decide, by decide, fun t => by simp, ?_⟩
      · simp [handleContactSubmit, contactTryBody, hreq', hmatch']
      · simp [contactValidates, hreq', hmatch']

/-- C1 (counterexample): with every DOM element present, when the health
check fails the startup trace sets the status to disconnected and shows
the error notification, but — contrary to the claim — binds neither the
contact-form handler nor the chat handler (and never renders metrics):
the rethrown health error makes `initializeApp`'s catch skip the rest of
the initialization. -/
theorem startupDegraded_claim_counterexample :
    InitEv.setStatus false ∈
      initializeApp ⟨true, true, true⟩ (.error "ECONNREFUSED") (.ok []) ∧
    InitEv.notify "Error al conectar con el servidor" "error" ∈
      initializeApp ⟨true, true, true⟩ (.error "ECONNREFUSED") (.ok []) ∧
    InitEv.bindContact ∉
      initializeApp ⟨true, true, true⟩ (.error "ECONNREFUSED") (.ok []) ∧
    InitEv.bindChat ∉
      initializeApp ⟨true, true, true⟩ (.error "ECONNREFUSED") (.ok []) := by
  decide

/-- C1 (amended): when the startup health check fails, the controller
logs, sets the connection status to disconnected (the status element
being present) and surfaces the error notification, but aborts the rest
of initialization: it never binds the contact-form or chat submit
handlers and never renders metrics. -/
theorem startupHealthFailure_abortsInit (dom : Dom) (e : String)
    (metricsNet : Except String MetricsObj) (hdom : dom.statusElement = true) :
    initializeApp dom (.error e) metricsNet =
      [.consoleError ("No se pudo conectar al backend: " ++ e), .setStatus false,
       .consoleError ("Error al inicializar la aplicación: " ++ e),
       .notify "Error al conectar con el servidor" "error"] ∧
    InitEv.setStatus false ∈ initializeApp dom (.error e) metricsNet ∧
    InitEv.notify "Error al conectar con el servidor" "error" ∈
      initializeApp dom (.error e) metricsNet ∧
    InitEv.bindContact ∉ initializeApp dom (.error e) metricsNet ∧
    InitEv.bindChat ∉ initializeApp dom (.error e) metricsNet ∧
    (∀ bars, InitEv.renderBars bars ∉ initializeApp dom (.error e) metricsNet) := by
  have htr : initializeApp dom (.error e) metricsNet =
      [.consoleError ("No se pudo conectar al backend: " ++ e), .setStatus false,
       .consoleError ("Error al inicializar la aplicación: " ++ e),
       .notify "Error al conectar con el servidor" "error"] := by
    simp [initializeApp, checkBackendConnection, updateConnectionStatus, hdom]
  refine ⟨htr, ?_, ?_, ?_, ?_, ?_⟩ <;> rw [htr] <;> simp

/-- C1 (witness for the amended theorem). -/
theorem startupHealthFailure_abortsInit_witness :
    (Dom.mk true true true).statusElement = true ∧
    InitEv.bindContact ∉
      initializeApp ⟨true, true, true⟩ (.error "boom") (.ok []) :=
  ⟨by decide,
   (startupHealthFailure_abortsInit ⟨true, true, true⟩ "boom" (.ok [])
      (by decide)).2.2.2.1⟩

end TeslaItse
